import Mathlib

/-!
Verification of the DICOM2BMP converter (src/utils.py, src/dicom2bmp.py)
against its specification.

The development shallowly embeds the Python source:

* numpy floating-point arrays are modelled as nested lists of rationals;
  a non-finite float (NaN/Inf) is modelled as `none` in `Option Rat`.
  In this pipeline the only non-finite value that can arise is NaN from
  the division `0/0` in the presentation-normalization step, and NaN
  propagates through every later arithmetic step, so collapsing NaN and
  Inf into one `none` value is sound here.
* pydicom `Dataset` attributes that may be absent are `Option` fields.
* the external collaborators `apply_modality_lut` and `apply_voi_lut`
  (pydicom) are opaque parameters gathered in `Externals`.
* the per-file effects (`pydicom.dcmread`, `ds.pixel_array`, `mkdir`,
  `cv2.imwrite`), each of which can raise, are modelled as `Except`
  values gathered in `Effects`; the `try/except` of `_ds_to_file` is the
  explicit error-handling structure of `ds_to_file_full`.
-/

set_option autoImplicit false

namespace D2B

/-- A finite or non-finite float: `some q` is the finite value `q`,
`none` is a non-finite value (in this pipeline always NaN). -/
abbrev FV := Option Rat

/-- Float subtraction; NaN propagates (any operation on NaN is NaN). -/
def fvSub (a b : FV) : FV :=
  match a, b with
  | some x, some y => some (x - y)
  | _, _ => none

/-- Float multiplication; NaN propagates. -/
def fvMul (a b : FV) : FV :=
  match a, b with
  | some x, some y => some (x * y)
  | _, _ => none

/-- IEEE-style float division: dividing by zero produces a non-finite
value (0/0 is NaN, x/0 is an infinity); NaN propagates. -/
def fvDiv (a b : FV) : FV :=
  match a, b with
  | some x, some y => if y = 0 then none else some (x / y)
  | _, _ => none

/-- Minimum of a list of rationals (numpy `ndarray.min()`); numpy raises
on an empty array, so the `[]` case is outside the model and its value 0
is only there for totality. -/
def listMin : List Rat → Rat
  | [] => 0
  | x :: xs => xs.foldl min x

/-- Maximum of a list of rationals (numpy `ndarray.max()`). -/
def listMax : List Rat → Rat
  | [] => 0
  | x :: xs => xs.foldl max x

theorem foldl_min_le_init (l : List Rat) (x : Rat) : List.foldl min x l ≤ x := by
  induction l generalizing x with
  | nil => exact le_refl x
  | cons b t ih => exact le_trans (ih (min x b)) (min_le_left x b)

theorem foldl_min_le_mem {l : List Rat} {a : Rat} (x : Rat) (h : a ∈ l) :
    List.foldl min x l ≤ a := by
  induction l generalizing x with
  | nil => cases h
  | cons b t ih =>
    rcases List.mem_cons.mp h with rfl | hb
    · exact le_trans (foldl_min_le_init t (min x a)) (min_le_right x a)
    · exact ih (min x b) hb

theorem foldl_min_mem (l : List Rat) (x : Rat) :
    List.foldl min x l ∈ x :: l := by
  induction l generalizing x with
  | nil => exact List.mem_singleton.mpr rfl
  | cons b t ih =>
    have h := ih (min x b)
    rcases List.mem_cons.mp h with h1 | h1
    · rcases min_choice x b with h2 | h2
      · exact List.mem_cons.mpr (Or.inl (h1.trans h2))
      · exact List.mem_cons.mpr (Or.inr (List.mem_cons.mpr (Or.inl (h1.trans h2))))
    · exact List.mem_cons.mpr (Or.inr (List.mem_cons.mpr (Or.inr h1)))

theorem listMin_le {l : List Rat} {a : Rat} (hne : l ≠ []) (h : a ∈ l) :
    listMin l ≤ a := by
  cases l with
  | nil => exact absurd rfl hne
  | cons x xs =>
    rcases List.mem_cons.mp h with rfl | hx
    · exact foldl_min_le_init xs a
    · exact foldl_min_le_mem x hx

theorem listMin_mem {l : List Rat} (hne : l ≠ []) : listMin l ∈ l := by
  cases l with
  | nil => exact absurd rfl hne
  | cons x xs => exact foldl_min_mem xs x

theorem listMin_eq {l : List Rat} {b : Rat} (hmem : b ∈ l)
    (hlb : ∀ a ∈ l, b ≤ a) : listMin l = b :=
  le_antisymm (listMin_le (List.ne_nil_of_mem hmem) hmem)
    (hlb _ (listMin_mem (List.ne_nil_of_mem hmem)))

theorem foldl_max_init_le (l : List Rat) (x : Rat) : x ≤ List.foldl max x l := by
  induction l generalizing x with
  | nil => exact le_refl x
  | cons b t ih => exact le_trans (le_max_left x b) (ih (max x b))

theorem foldl_max_mem_le {l : List Rat} {a : Rat} (x : Rat) (h : a ∈ l) :
    a ≤ List.foldl max x l := by
  induction l generalizing x with
  | nil => cases h
  | cons b t ih =>
    rcases List.mem_cons.mp h with rfl | hb
    · exact le_trans (le_max_right x a) (foldl_max_init_le t (max x a))
    · exact ih (max x b) hb

theorem foldl_max_mem (l : List Rat) (x : Rat) :
    List.foldl max x l ∈ x :: l := by
  induction l generalizing x with
  | nil => exact List.mem_singleton.mpr rfl
  | cons b t ih =>
    have h := ih (max x b)
    rcases List.mem_cons.mp h with h1 | h1
    · rcases max_choice x b with h2 | h2
      · exact List.mem_cons.mpr (Or.inl (h1.trans h2))
      · exact List.mem_cons.mpr (Or.inr (List.mem_cons.mpr (Or.inl (h1.trans h2))))
    · exact List.mem_cons.mpr (Or.inr (List.mem_cons.mpr (Or.inr h1)))

theorem le_listMax {l : List Rat} {a : Rat} (hne : l ≠ []) (h : a ∈ l) :
    a ≤ listMax l := by
  cases l with
  | nil => exact absurd rfl hne
  | cons x xs =>
    rcases List.mem_cons.mp h with rfl | hx
    · exact foldl_max_init_le xs a
    · exact foldl_max_mem_le x hx

theorem listMax_mem {l : List Rat} (hne : l ≠ []) : listMax l ∈ l := by
  cases l with
  | nil => exact absurd rfl hne
  | cons x xs => exact foldl_max_mem xs x

theorem listMax_eq {l : List Rat} {b : Rat} (hmem : b ∈ l)
    (hub : ∀ a ∈ l, a ≤ b) : listMax l = b :=
  le_antisymm (hub _ (listMax_mem (List.ne_nil_of_mem hmem)))
    (le_listMax (List.ne_nil_of_mem hmem) hmem)

theorem listMin_le_listMax {l : List Rat} (hne : l ≠ []) :
    listMin l ≤ listMax l :=
  le_trans (listMin_le hne (listMax_mem hne)) (le_refl _)

/-! ### Pixel arrays

A numpy pixel array as this program sees it: either 2-dimensional
(grayscale, a list of rows) or 3-dimensional (a list of rows of pixels,
each pixel a list of channel samples).  The `chans` field of `color`
records numpy's `shape[2]`; well-formed arrays have every pixel of that
length, which theorems assume where it matters.  1- and 4-dimensional
arrays never occur for the claims under study and are outside the model.
-/

inductive PixelArray (α : Type) where
  | gray (rows : List (List α))
  | color (chans : Nat) (rows : List (List (List α)))
  deriving DecidableEq, Repr

/-- The element sequence of an array (row-major), over which numpy's
global reductions `min`/`max` and elementwise operations act. -/
def paFlatten {α : Type} : PixelArray α → List α
  | .gray rows => rows.flatten
  | .color _ rows => (rows.map List.flatten).flatten

/-- Elementwise map, preserving the shape (numpy broadcasting of a
scalar operation). -/
def paMap {α β : Type} (f : α → β) : PixelArray α → PixelArray β
  | .gray rows => .gray (rows.map (List.map f))
  | .color c rows => .color c (rows.map (List.map (List.map f)))

/-- Elementwise relation between two arrays of identical shape. -/
def paForall₂ {α β : Type} (r : α → β → Prop) : PixelArray α → PixelArray β → Prop
  | .gray rows₁, .gray rows₂ => List.Forall₂ (List.Forall₂ r) rows₁ rows₂
  | .color c₁ rows₁, .color c₂ rows₂ =>
      c₁ = c₂ ∧ List.Forall₂ (List.Forall₂ (List.Forall₂ r)) rows₁ rows₂
  | _, _ => False

theorem map_congr_mem {α β : Type} {f g : α → β} {l : List α}
    (h : ∀ x ∈ l, f x = g x) : l.map f = l.map g := by
  induction l with
  | nil => rfl
  | cons a t ih =>
    simp only [List.map_cons]
    rw [h a (List.mem_cons_self a t), ih fun x hx => h x (List.mem_cons_of_mem a hx)]

theorem forall₂_map_self {α β : Type} {r : β → α → Prop} {f : α → β}
    {l : List α} (h : ∀ x ∈ l, r (f x) x) : List.Forall₂ r (l.map f) l := by
  induction l with
  | nil => exact List.Forall₂.nil
  | cons a t ih =>
    exact List.Forall₂.cons (h a (List.mem_cons_self a t))
      (ih fun x hx => h x (List.mem_cons_of_mem a hx))

theorem paForall₂_map_self {α β : Type} {r : β → α → Prop} {f : α → β}
    {a : PixelArray α} (h : ∀ x ∈ paFlatten a, r (f x) x) :
    paForall₂ r (paMap f a) a := by
  cases a with
  | gray rows =>
    refine forall₂_map_self fun row hrow => ?_
    refine forall₂_map_self fun x hx => ?_
    exact h x (List.mem_flatten.mpr ⟨row, hrow, hx⟩)
  | color c rows =>
    refine ⟨rfl, forall₂_map_self fun row hrow => ?_⟩
    refine forall₂_map_self fun px hpx => ?_
    refine forall₂_map_self fun x hx => ?_
    refine h x ?_
    exact List.mem_flatten.mpr ⟨row.flatten, List.mem_map_of_mem List.flatten hrow,
      List.mem_flatten.mpr ⟨px, hpx, hx⟩⟩

theorem paFlatten_paMap {α β : Type} (f : α → β) (a : PixelArray α) :
    paFlatten (paMap f a) = (paFlatten a).map f := by
  cases a with
  | gray rows => simp [paFlatten, paMap, List.map_flatten]
  | color c rows =>
    show ((rows.map (List.map (List.map f))).map List.flatten).flatten
        = ((rows.map List.flatten).flatten).map f
    rw [List.map_flatten, List.map_map, List.map_map]
    congr 1
    exact map_congr_mem fun row _ => (List.map_flatten f row).symm

theorem paMap_paMap {α β γ : Type} (f : α → β) (g : β → γ) (a : PixelArray α) :
    paMap g (paMap f a) = paMap (fun x => g (f x)) a := by
  cases a with
  | gray rows => simp [paMap, List.map_map, Function.comp]
  | color c rows => simp [paMap, List.map_map, Function.comp]

theorem paMap_congr {α β : Type} {f g : α → β} {a : PixelArray α}
    (h : ∀ x ∈ paFlatten a, f x = g x) : paMap f a = paMap g a := by
  cases a with
  | gray rows =>
    simp only [paMap, PixelArray.gray.injEq]
    refine map_congr_mem fun row hrow => ?_
    refine map_congr_mem fun x hx => ?_
    exact h x (List.mem_flatten.mpr ⟨row, hrow, hx⟩)
  | color c rows =>
    simp only [paMap, PixelArray.color.injEq, true_and]
    refine map_congr_mem fun row hrow => ?_
    refine map_congr_mem fun px hpx => ?_
    refine map_congr_mem fun x hx => ?_
    refine h x ?_
    exact List.mem_flatten.mpr ⟨row.flatten, List.mem_map_of_mem List.flatten hrow,
      List.mem_flatten.mpr ⟨px, hpx, hx⟩⟩

/-- Array-wide minimum, `pixel_array.min()`. -/
def paMin (a : PixelArray Rat) : Rat := listMin (paFlatten a)

/-- Array-wide maximum, `pixel_array.max()`. -/
def paMax (a : PixelArray Rat) : Rat := listMax (paFlatten a)

/-- `np.max` over possibly non-finite values: NaN propagates (numpy's
`np.max` returns NaN when any element is NaN); the empty case is a
numpy error, modelled as a non-value. -/
def npMaxFV : List FV → FV
  | [] => none
  | x :: xs =>
    xs.foldl (fun acc a =>
      match acc, a with
      | some m, some v => some (max m v)
      | _, _ => none) x

/-! ### Datasets and collaborators -/

/-- A DICOM numeric attribute value: either a single value or a
pydicom `MultiValue` (modelled non-empty; `float(v[0])` selects the
first element). -/
inductive DVal where
  | single (v : Rat)
  | multi (v0 : Rat) (rest : List Rat)
  deriving DecidableEq, Repr

/-- The value the source uses: the value itself, or the first element
of a `MultiValue` (lines 46-53 of src/utils.py). -/
def DVal.first : DVal → Rat
  | .single v => v
  | .multi v0 _ => v0

/-- A decoded pydicom `Dataset`, restricted to the attributes the
program reads.  An `Option` field is `none` when the attribute is
absent from the file (attribute access raises / `in` is false). -/
structure Dataset where
  SOPClassUID : String
  RescaleSlope : Option Rat := none
  RescaleIntercept : Option Rat := none
  VOILUTFunction : Option String := none
  WindowCenter : Option DVal := none
  WindowWidth : Option DVal := none
  PhotometricInterpretation : Option String := none
  SeriesNumber : Option Int := none
  InstanceNumber : Option Int := none
  deriving DecidableEq, Repr

/-- The pydicom LUT collaborators `apply_modality_lut` and
`apply_voi_lut`: external black boxes, modelled as arbitrary functions
on arrays. -/
structure Externals where
  applyModalityLut : Dataset → PixelArray Rat → PixelArray Rat
  applyVoiLut : Dataset → PixelArray Rat → PixelArray Rat

/-- Identity collaborators, used to instantiate witnesses. -/
def extId : Externals :=
  { applyModalityLut := fun _ a => a, applyVoiLut := fun _ a => a }

/-- The fallible operations `_ds_to_file` performs for one file, in
source order: `pydicom.dcmread` (line 85), `ds.pixel_array.astype(float)`
(line 93), `Path.mkdir` (line 111), `cv2.imwrite` (line 114).  An
`Except.error e` models a raised exception with message `e`. -/
structure Effects where
  readDs : Except String Dataset
  readPixels : Except String (PixelArray Rat)
  mkdirRes : Except String Unit
  imwriteRes : Except String Unit

/-- The value `_ds_to_file` returns for one file: Python `True` on
success, otherwise the skip/failure message string. -/
inductive Result where
  | converted
  | msg (s : String)
  deriving DecidableEq, Repr

/-- Whether a per-file result counts as a success
(`result is True`, line 205 of src/utils.py). -/
def isConverted : Result → Bool
  | .converted => true
  | .msg _ => false

/-- `pat` occurs as a contiguous substring of `hay`. -/
def containsStr (hay pat : String) : Prop :=
  ∃ pre post, hay = pre ++ pat ++ post

/-- ASCII lowercasing of one character. -/
def charLower (c : Char) : Char :=
  if c.isUpper then Char.ofNat (c.toNat + 32) else c

/-- `pat` occurs as a contiguous substring of `hay` up to ASCII case. -/
def containsStrCI (hay pat : String) : Prop :=
  ∃ pre mid post, hay = pre ++ mid ++ post ∧
    mid.data.map charLower = pat.data.map charLower

theorem containsStr_intro (pre pat post : String) :
    containsStr (pre ++ pat ++ post) pat :=
  ⟨pre, post, rfl⟩

/-! ### The source functions of src/utils.py -/

/-- `_is_unsupported` (src/utils.py lines 19-26): `some name` models the
returned descriptive name string, `none` models the returned `False`. -/
def is_unsupported (ds : Dataset) : Option String :=
  if ds.SOPClassUID = "1.2.840.10008.5.1.4.1.1.104.1" then
    some "Encapsulated PDF Storage"
  else if ds.SOPClassUID = "1.2.840.10008.5.1.4.1.1.88.59" then
    some "Key Object Selection Document"
  else
    none

/-- `_get_LUT_value_LINEAR_EXACT` (src/utils.py lines 69-79).
`np.piecewise` assigns the branches in condition-list order, so where
both conditions hold (possible only for a negative window) the later
`data > level + window/2` assignment overwrites the earlier one; per
element that means the upper-clamp condition is tested first.  The
default lambda is evaluated only on elements satisfying neither
condition, which for `window = 0` is no element, so the division by
`window` there never divides by zero in the source. -/
def get_LUT_value_LINEAR_EXACT (data : PixelArray Rat) (window level : Rat) :
    PixelArray Rat :=
  let data_min := paMin data
  let data_max := paMax data
  let data_range := data_max - data_min
  paMap (fun x =>
    if x > level + window / 2 then data_max
    else if x ≤ level - window / 2 then data_min
    else ((x - level + window / 2) / window * data_range) + data_min) data

/-- Step 3 of `_pixel_process` (src/utils.py line 60): presentation
normalization `((pa - pa.min()) / (pa.max() - pa.min())) * 255.0`,
with the float division modelled by `fvDiv` so that a flat array
(max = min) produces the non-finite `0/0`. -/
def normalize_step (a : PixelArray Rat) : PixelArray FV :=
  let mn := paMin a
  let mx := paMax a
  paMap (fun x => fvMul (fvDiv (some (x - mn)) (some (mx - mn))) (some 255)) a

/-- The MONOCHROME1 branch of `_pixel_process` (src/utils.py line 64):
`np.max(pixel_array) - pixel_array`. -/
def invert_step (a : PixelArray FV) : PixelArray FV :=
  let m := npMaxFV (paFlatten a)
  paMap (fun x => fvSub m x) a

/-- Truncation toward zero, the C conversion a numpy float-to-integer
`astype` performs. -/
def ratTrunc (q : Rat) : Int :=
  if 0 ≤ q then ⌊q⌋ else ⌈q⌉

/-- `astype('uint8')` on one float (src/utils.py line 66): truncate
toward zero and wrap modulo 256; the cast of a non-finite value is
undefined behaviour (platform-dependent), modelled as `none`. -/
def astype_uint8 (x : FV) : Option Nat :=
  x.map (fun q => (ratTrunc q % 256).toNat)

/-- `_pixel_process` (src/utils.py lines 29-66), steps in source order:
modality rescale (lines 31-36), VOI windowing (lines 39-57),
presentation normalization (line 60), MONOCHROME1 inversion
(lines 63-64), 8-bit cast (line 66). -/
def pixel_process (ext : Externals) (ds : Dataset) (pixel_array : PixelArray Rat) :
    PixelArray (Option Nat) :=
  let pa1 :=
    match ds.RescaleSlope, ds.RescaleIntercept with
    | some rescale_slope, some rescale_intercept =>
        paMap (fun x => x * rescale_slope + rescale_intercept) pixel_array
    | _, _ => ext.applyModalityLut ds pixel_array
  let pa2 :=
    if ds.VOILUTFunction = some "SIGMOID" then ext.applyVoiLut ds pa1
    else
      match ds.WindowCenter, ds.WindowWidth with
      | some window_center, some window_width =>
          get_LUT_value_LINEAR_EXACT pa1 window_width.first window_center.first
      | _, _ => ext.applyVoiLut ds pa1
  let pa3 := normalize_step pa2
  let pa4 :=
    if ds.PhotometricInterpretation = some "MONOCHROME1" then invert_step pa3
    else pa3
  paMap astype_uint8 pa4

/-- The photometric interpretations that trigger the channel reorder
(src/utils.py lines 103-104). -/
def reorderSet : List String :=
  ["YBR_RCT", "RGB", "YBR_ICT", "YBR_PARTIAL_420", "YBR_FULL_422",
   "YBR_FULL", "PALETTE COLOR"]

/-- The effect of `p[[0, 2]] = p[[2, 0]]` on one pixel's channel list:
channels 0 and 2 swapped, the rest unchanged.  Pixels with fewer than
3 channels cannot reach this code inside `_ds_to_file` (the multiframe
guard admits only `shape[2] == 3` 3-dimensional arrays). -/
def swap02 {α : Type} : List α → List α
  | a :: b :: c :: rest => c :: b :: a :: rest
  | l => l

/-- The color-plane reorder of `_ds_to_file` (src/utils.py lines
102-105): `pixel_array[:, :, [0, 2]] = pixel_array[:, :, [2, 0]]` when
the photometric interpretation is in `reorderSet`.  There is no shape
guard in the source: on a 2-dimensional array the triple index raises
`IndexError`, modelled as the `Except.error`. -/
def color_reorder {α : Type} (ds : Dataset) (pixel_array : PixelArray α) :
    Except String (PixelArray α) :=
  match ds.PhotometricInterpretation with
  | some pm =>
    if pm ∈ reorderSet then
      match pixel_array with
      | .color c rows => .ok (.color c (rows.map (List.map swap02)))
      | .gray _ => .error "IndexError: too many indices for array"
    else .ok pixel_array
  | none => .ok pixel_array

/-- `_get_export_file_path` (src/utils.py lines 122-137).  The
`try/except` around each attribute access substitutes the literal
token when the attribute is absent; `file_path` is accepted and
ignored exactly as in the source; the pathlib join `target_root /
Path(filename)` is string concatenation with a separator here. -/
def get_export_file_path (ds : Dataset) (file_path : String) (target_root : String) :
    String :=
  let series_number :=
    match ds.SeriesNumber with
    | some n => toString n
    | none => "Ser"
  let instance_number :=
    match ds.InstanceNumber with
    | some n => toString n
    | none => "Ins"
  let filename := series_number ++ "_" ++ instance_number ++ ".bmp"
  target_root ++ "/" ++ filename

/-- The message the `except` clause of `_ds_to_file` builds
(src/utils.py line 119). -/
def errWrap (file_path e : String) : String :=
  "Error converting " ++ file_path ++ ": " ++ e

/-- The multiframe skip reason (src/utils.py line 97, second line of
the returned string). -/
def multiframeMsg : String := "Multiframe images are currently not supported"

/-- The skip message for an unsupported SOP class (src/utils.py
line 90). -/
def unsupportedMsg (file_path name : String) : String :=
  file_path ++ " cannot be converted.\n" ++ name ++ " is currently not supported"

/-- `len(pixel_array.shape) == 3 and pixel_array.shape[2] != 3`
(src/utils.py line 96): a 3-dimensional array whose last dimension is
not 3 is a multiframe volume. -/
def isMultiframe {α : Type} : PixelArray α → Bool
  | .color c _ => c ≠ 3
  | .gray _ => false

/-- Lines 99-116 of `_ds_to_file`: pixel processing, color reorder,
export-path resolution, directory creation and the bitmap write, still
inside the `try` block.  The second component lists the export path
when execution reaches `cv2.imwrite`. -/
def ds_to_file_rest (eff : Effects) (ext : Externals) (ds : Dataset)
    (file_path target_root : String) (pixel_array : PixelArray Rat) :
    Result × List String :=
  let processed := pixel_process ext ds pixel_array
  match color_reorder ds processed with
  | .error e => (.msg (errWrap file_path e), [])
  | .ok _ =>
    let out := get_export_file_path ds file_path target_root
    match eff.mkdirRes with
    | .error e => (.msg (errWrap file_path e), [])
    | .ok _ =>
      match eff.imwriteRes with
      | .error e => (.msg (errWrap file_path e), [out])
      | .ok _ => (.converted, [out])

/-- `_ds_to_file` (src/utils.py lines 82-119), with its write attempt
made observable: the second component lists the export path when
execution reaches `cv2.imwrite`.  Every raising operation inside the
`try` block lands in the single `except` clause, which wraps the
exception into the `errWrap` message. -/
def ds_to_file_full (eff : Effects) (ext : Externals)
    (file_path target_root : String) : Result × List String :=
  match eff.readDs with
  | .error e => (.msg (errWrap file_path e), [])
  | .ok ds =>
    match is_unsupported ds with
    | some name => (.msg (unsupportedMsg file_path name), [])
    | none =>
      match eff.readPixels with
      | .error e => (.msg (errWrap file_path e), [])
      | .ok pixel_array =>
        if isMultiframe pixel_array then
          (.msg (file_path ++ " cannot be converted.\n" ++ multiframeMsg), [])
        else ds_to_file_rest eff ext ds file_path target_root pixel_array

/-- The value `_ds_to_file` returns (its write effect dropped). -/
def ds_to_file (eff : Effects) (ext : Externals)
    (file_path target_root : String) : Result :=
  (ds_to_file_full eff ext file_path target_root).1

/-- `_dicom_convertor` (src/utils.py lines 182-217) after file
discovery: each task is a file path with its per-file effects; the
returned flag is `successful > 0`, and the second component is the
trace of attempted writes (empty when no file is discovered, since the
function returns at line 188 before any per-file work).  The
sequential and process-pool branches produce the same result list. -/
def dicom_convertor (ext : Externals) (target_root : String)
    (tasks : List (String × Effects)) : Bool × List String :=
  if tasks.isEmpty then (false, [])
  else
    let runs := tasks.map fun t => ds_to_file_full t.2 ext t.1 target_root
    let successful := runs.countP fun r => isConverted r.1
    (decide (0 < successful), (runs.map Prod.snd).flatten)

/-! ### Further helper lemmas -/

theorem foldl_npmax_map_some (xs : List Rat) (x : Rat) :
    List.foldl (fun acc a =>
      match acc, a with
      | some m, some v => some (max m v)
      | _, _ => none) (some x) (xs.map some) = some (List.foldl max x xs) := by
  induction xs generalizing x with
  | nil => rfl
  | cons b t ih => exact ih (max x b)

theorem npMaxFV_map_some {l : List Rat} (hne : l ≠ []) :
    npMaxFV (l.map some) = some (listMax l) := by
  cases l with
  | nil => exact absurd rfl hne
  | cons x xs => exact foldl_npmax_map_some xs x

theorem listMax_map_const_sub (c : Rat) {l : List Rat} (hne : l ≠ []) :
    listMax (l.map (fun v => c - v)) = c - listMin l := by
  refine listMax_eq (List.mem_map.mpr ⟨listMin l, listMin_mem hne, rfl⟩) ?_
  intro y hy
  obtain ⟨v, hv, rfl⟩ := List.mem_map.mp hy
  exact sub_le_sub_left (listMin_le hne hv) c

theorem paForall₂_refl {α : Type} {r : α → α → Prop} {a : PixelArray α}
    (h : ∀ x ∈ paFlatten a, r x x) : paForall₂ r a a := by
  cases a with
  | gray rows =>
    refine List.forall₂_same.mpr fun row hrow => ?_
    refine List.forall₂_same.mpr fun x hx => ?_
    exact h x (List.mem_flatten.mpr ⟨row, hrow, hx⟩)
  | color c rows =>
    refine ⟨rfl, List.forall₂_same.mpr fun row hrow => ?_⟩
    refine List.forall₂_same.mpr fun px hpx => ?_
    refine List.forall₂_same.mpr fun x hx => ?_
    refine h x ?_
    exact List.mem_flatten.mpr ⟨row.flatten, List.mem_map_of_mem List.flatten hrow,
      List.mem_flatten.mpr ⟨px, hpx, hx⟩⟩

/-! ### The claims -/

/-- Claim C6: the Compatibility Gate returns the descriptive name
"Encapsulated PDF Storage" for SOPClassUID 1.2.840.10008.5.1.4.1.1.104.1
and "Key Object Selection Document" for 1.2.840.10008.5.1.4.1.1.88.59,
classifies every other SOPClassUID as supported, and a dataset with the
Encapsulated PDF UID always makes `_ds_to_file` return a skip message
whose reason contains "Encapsulated PDF". -/
theorem C6_compatibility_gate (ds : Dataset) :
    (ds.SOPClassUID = "1.2.840.10008.5.1.4.1.1.104.1" →
      is_unsupported ds = some "Encapsulated PDF Storage") ∧
    (ds.SOPClassUID = "1.2.840.10008.5.1.4.1.1.88.59" →
      is_unsupported ds = some "Key Object Selection Document") ∧
    (ds.SOPClassUID ≠ "1.2.840.10008.5.1.4.1.1.104.1" →
      ds.SOPClassUID ≠ "1.2.840.10008.5.1.4.1.1.88.59" →
      is_unsupported ds = none) ∧
    (∀ (eff : Effects) (ext : Externals) (file_path target_root : String),
      eff.readDs = .ok ds →
      ds.SOPClassUID = "1.2.840.10008.5.1.4.1.1.104.1" →
      ∃ m, ds_to_file eff ext file_path target_root = .msg m ∧
        containsStr m "Encapsulated PDF") := by
  refine ⟨fun h => by simp [is_unsupported, h], ?_, ?_, ?_⟩
  · intro h
    by_cases h1 : ds.SOPClassUID = "1.2.840.10008.5.1.4.1.1.104.1"
    · rw [h] at h1; exact absurd h1 (by decide)
    · simp [is_unsupported, h1, h]
  · intro h1 h2
    simp [is_unsupported, h1, h2]
  · intro eff ext file_path target_root hread hpdf
    have hgate : is_unsupported ds = some "Encapsulated PDF Storage" := by
      simp [is_unsupported, hpdf]
    refine ⟨unsupportedMsg file_path "Encapsulated PDF Storage", ?_, ?_⟩
    · simp [ds_to_file, ds_to_file_full, hread, hgate]
    · have hlit : ("Encapsulated PDF Storage" : String) ++ " is currently not supported"
          = "Encapsulated PDF" ++ " Storage is currently not supported" := by decide
      have hmsg : unsupportedMsg file_path "Encapsulated PDF Storage"
          = (file_path ++ " cannot be converted.\n") ++ "Encapsulated PDF"
              ++ " Storage is currently not supported" := by
        simp only [unsupportedMsg, String.append_assoc, hlit]
      exact hmsg ▸ containsStr_intro _ _ _

/-- Witness for C6 at a concrete Encapsulated PDF dataset. -/
theorem C6_witness :
    ∃ m, ds_to_file
        { readDs := .ok { SOPClassUID := "1.2.840.10008.5.1.4.1.1.104.1" },
          readPixels := .error "no pixel data",
          mkdirRes := .ok (), imwriteRes := .ok () }
        extId "scan.dcm" "out" = .msg m ∧
      containsStr m "Encapsulated PDF" :=
  (C6_compatibility_gate { SOPClassUID := "1.2.840.10008.5.1.4.1.1.104.1" }).2.2.2
    _ extId "scan.dcm" "out" rfl rfl

/-- Claim C7: the Export Path Resolver produces
`root/{SeriesNumber}_{InstanceNumber}.bmp`, substituting the literal
token "Ser" when SeriesNumber is absent and "Ins" when InstanceNumber
is absent; a dataset with neither yields `Ser_Ins.bmp`, and a dataset
with SeriesNumber 3 and InstanceNumber 12 yields `3_12.bmp`. -/
theorem C7_export_path :
    (∀ (ds : Dataset) (file_path target_root : String),
      get_export_file_path ds file_path target_root =
        target_root ++ "/" ++
          (match ds.SeriesNumber with
           | some n => toString n
           | none => "Ser") ++ "_" ++
          (match ds.InstanceNumber with
           | some n => toString n
           | none => "Ins") ++ ".bmp") ∧
    get_export_file_path { SOPClassUID := "1.2" } "a/in.dcm" "out"
      = "out/Ser_Ins.bmp" ∧
    get_export_file_path
        { SOPClassUID := "1.2", SeriesNumber := some 3, InstanceNumber := some 12 }
        "a/in.dcm" "out"
      = "out/3_12.bmp" := by
  refine ⟨fun ds file_path target_root => ?_, by decide, by decide⟩
  simp only [get_export_file_path, String.append_assoc]

/-- Claim C10: the resolved export path depends only on the dataset's
SeriesNumber and InstanceNumber and the target root; the source file
path never influences it, so two calls with equal metadata but
different source paths give identical output paths. -/
theorem C10_path_independent_of_source (ds₁ ds₂ : Dataset)
    (hs : ds₁.SeriesNumber = ds₂.SeriesNumber)
    (hi : ds₁.InstanceNumber = ds₂.InstanceNumber)
    (p₁ p₂ target_root : String) :
    get_export_file_path ds₁ p₁ target_root
      = get_export_file_path ds₂ p₂ target_root := by
  simp [get_export_file_path, hs, hi]

/-- Witness for C10: two datasets equal only in SeriesNumber and
InstanceNumber, read from two different source paths, map to the same
output path. -/
theorem C10_witness :
    get_export_file_path
        { SOPClassUID := "A", SeriesNumber := some 3, InstanceNumber := some 12 }
        "dir1/a.dcm" "out"
      = get_export_file_path
          { SOPClassUID := "B", PhotometricInterpretation := some "RGB",
            SeriesNumber := some 3, InstanceNumber := some 12 }
          "dir2/b.dcm" "out" :=
  C10_path_independent_of_source _ _ rfl rfl "dir1/a.dcm" "dir2/b.dcm" "out"

/-- Claim C5: the batch conversion returns true iff at least one file
converted successfully; with zero discovered files it returns false,
raises nothing (it is a total function here) and attempts no write. -/
theorem C5_batch_success_flag (ext : Externals) (target_root : String)
    (tasks : List (String × Effects)) :
    ((dicom_convertor ext target_root tasks).1 = true ↔
      ∃ t ∈ tasks, isConverted (ds_to_file t.2 ext t.1 target_root) = true) ∧
    (tasks = [] → dicom_convertor ext target_root tasks = (false, [])) := by
  constructor
  · cases tasks with
    | nil => simp [dicom_convertor]
    | cons t ts =>
      simp only [dicom_convertor, List.isEmpty_cons, Bool.false_eq_true,
        if_false, decide_eq_true_eq, List.countP_map, List.countP_pos_iff,
        Function.comp]
      exact Iff.rfl
  · rintro rfl
    rfl

/-- Witness for C5: an empty batch returns the failure flag with no
write attempted. -/
theorem C5_witness : dicom_convertor extId "out" [] = (false, []) :=
  (C5_batch_success_flag extId "out" []).2 rfl

/-- Claim C8: every exception raised inside the per-file `try` block of
`_ds_to_file` (decode, pixel loading, the reorder's IndexError,
directory creation, write) is caught and turned into the message
`Error converting {file_path}: {cause}`, which contains the file path
and the underlying cause; the per-file task never propagates an
exception (the function is total into `Result`). -/
theorem C8_per_file_exception_capture (eff : Effects) (ext : Externals)
    (file_path target_root : String) (e : String) :
    (eff.readDs = .error e →
      ds_to_file eff ext file_path target_root = .msg (errWrap file_path e)) ∧
    (∀ ds, eff.readDs = .ok ds → is_unsupported ds = none →
      eff.readPixels = .error e →
      ds_to_file eff ext file_path target_root = .msg (errWrap file_path e)) ∧
    (∀ ds pa, eff.readDs = .ok ds → is_unsupported ds = none →
      eff.readPixels = .ok pa → isMultiframe pa = false →
      color_reorder ds (pixel_process ext ds pa) = .error e →
      ds_to_file eff ext file_path target_root = .msg (errWrap file_path e)) ∧
    (∀ ds pa pr, eff.readDs = .ok ds → is_unsupported ds = none →
      eff.readPixels = .ok pa → isMultiframe pa = false →
      color_reorder ds (pixel_process ext ds pa) = .ok pr →
      eff.mkdirRes = .error e →
      ds_to_file eff ext file_path target_root = .msg (errWrap file_path e)) ∧
    (∀ ds pa pr, eff.readDs = .ok ds → is_unsupported ds = none →
      eff.readPixels = .ok pa → isMultiframe pa = false →
      color_reorder ds (pixel_process ext ds pa) = .ok pr →
      eff.mkdirRes = .ok () → eff.imwriteRes = .error e →
      ds_to_file eff ext file_path target_root = .msg (errWrap file_path e)) ∧
    containsStr (errWrap file_path e) file_path ∧
    containsStr (errWrap file_path e) e := by
  refine ⟨?_, ?_, ?_, ?_, ?_, ?_, ?_⟩
  · intro h
    simp [ds_to_file, ds_to_file_full, h]
  · intro ds h1 h2 h3
    simp [ds_to_file, ds_to_file_full, h1, h2, h3]
  · intro ds pa h1 h2 h3 h4 h5
    simp [ds_to_file, ds_to_file_full, ds_to_file_rest, h1, h2, h3, h4, h5]
  · intro ds pa pr h1 h2 h3 h4 h5 h6
    simp [ds_to_file, ds_to_file_full, ds_to_file_rest, h1, h2, h3, h4, h5, h6]
  · intro ds pa pr h1 h2 h3 h4 h5 h6 h7
    simp [ds_to_file, ds_to_file_full, ds_to_file_rest, h1, h2, h3, h4, h5, h6, h7]
  · exact ⟨"Error converting ", ": " ++ e, by simp [errWrap, String.append_assoc]⟩
  · exact ⟨"Error converting " ++ file_path ++ ": ", "",
      by simp [errWrap, String.append_assoc]⟩

/-- Witness for C8 at a concrete failing decode. -/
theorem C8_witness :
    ds_to_file
        { readDs := .error "boom", readPixels := .error "boom",
          mkdirRes := .ok (), imwriteRes := .ok () }
        extId "f.dcm" "out"
      = .msg (errWrap "f.dcm" "boom") :=
  (C8_per_file_exception_capture _ extId "f.dcm" "out" "boom").1 rfl

/-- Claim C3: a file whose raw pixel array is 3-dimensional with a last
dimension other than 3 is skipped with the multiframe reason (which
contains "multiframe" up to ASCII case) before any numeric pixel work:
the result is the same fixed message for every collaborator behaviour
and every pixel content, and no exception escapes. -/
theorem C3_multiframe_skip (eff : Effects) (ext : Externals)
    (file_path target_root : String) (ds : Dataset) (c : Nat)
    (rows : List (List (List Rat)))
    (hread : eff.readDs = .ok ds)
    (hgate : is_unsupported ds = none)
    (hpix : eff.readPixels = .ok (.color c rows))
    (hc : c ≠ 3) :
    ds_to_file eff ext file_path target_root =
      .msg (file_path ++ " cannot be converted.\n" ++ multiframeMsg) ∧
    containsStrCI multiframeMsg "multiframe" := by
  constructor
  · simp [ds_to_file, ds_to_file_full, hread, hgate, hpix, isMultiframe, hc]
  · exact ⟨"", "Multiframe", " images are currently not supported",
      by decide, by decide⟩

/-- Witness for C3 at a concrete 1 by 1 by 5 pixel array. -/
theorem C3_witness :
    ds_to_file
        { readDs := .ok { SOPClassUID := "1.2.840.10008.5.1.4.1.1.7" },
          readPixels := .ok (.color 5 [[[1, 2, 3, 4, 5]]]),
          mkdirRes := .ok (), imwriteRes := .ok () }
        extId "vol.dcm" "out"
      = .msg ("vol.dcm" ++ " cannot be converted.\n" ++ multiframeMsg) :=
  (C3_multiframe_skip _ extId "vol.dcm" "out"
      { SOPClassUID := "1.2.840.10008.5.1.4.1.1.7" } 5 [[[1, 2, 3, 4, 5]]]
      rfl (by decide) rfl (by decide)).1

/-- Claim C2, counterexample to the statement as written: it
quantifies over every window value, but for a negative window the two
clamp regions overlap and `np.piecewise` lets the later `data > hi`
assignment win, so an element in the overlap maps to the global
maximum, not the global minimum required by the claim's first clause.
At data `[0, 10]`, `window = -2`, `level = 0`: element 0 satisfies
`0 <= level - window/2 = 1`, so the claim requires the global minimum
0, but the source yields 10. -/
theorem C2_counterexample :
    ((0 : Rat) ≤ 0 - (-2) / 2) ∧
    paMin (PixelArray.gray [[(0 : Rat), 10]]) = 0 ∧
    get_LUT_value_LINEAR_EXACT (PixelArray.gray [[(0 : Rat), 10]]) (-2) 0
      = PixelArray.gray [[10, 10]] ∧
    PixelArray.gray [[(10 : Rat), 10]] ≠ PixelArray.gray [[0, 10]] := by
  refine ⟨by norm_num, ?_, ?_, ?_⟩
  · norm_num [paMin, paFlatten, listMin]
  · norm_num [get_LUT_value_LINEAR_EXACT, paMap, paMin, paMax, paFlatten,
      listMin, listMax, min_def, max_def]
  · intro h
    rw [PixelArray.gray.injEq] at h
    norm_num at h

/-- Claim C2, amended: for a nonnegative window width `w` and level
`l`, the linear-exact windowing maps every element `x ≤ l - w/2` to the
array's global minimum, every element `x > l + w/2` to the array's
global maximum, and every remaining element to
`((x - l + w/2) / w * (max - min)) + min` with `min`/`max` the global
minimum and maximum of the current array.  (For a negative window the
two clamp regions overlap and the upper clamp takes precedence.) -/
theorem C2_linear_exact_window (data : PixelArray Rat) (window level : Rat)
    (hw : 0 ≤ window) :
    paForall₂ (fun out x =>
        (x ≤ level - window / 2 → out = paMin data) ∧
        (x > level + window / 2 → out = paMax data) ∧
        (¬ x ≤ level - window / 2 → ¬ x > level + window / 2 →
          out = ((x - level + window / 2) / window * (paMax data - paMin data))
                  + paMin data))
      (get_LUT_value_LINEAR_EXACT data window level) data := by
  unfold get_LUT_value_LINEAR_EXACT
  refine paForall₂_map_self fun x _ => ⟨?_, ?_, ?_⟩
  · intro hlo
    have hnothi : ¬ x > level + window / 2 := by
      push_neg
      linarith
    simp [hnothi, hlo]
  · intro hhi
    simp [hhi]
  · intro h1 h2
    simp [h1, h2]

/-- Witness for C2 at the spec's example: data `{0, 100, 150, 200, 300}`
with `window = 100`, `level = 150`. -/
theorem C2_witness :
    paForall₂ (fun out x =>
        (x ≤ 150 - 100 / 2 →
          out = paMin (PixelArray.gray [[(0 : Rat), 100, 150, 200, 300]])) ∧
        (x > 150 + 100 / 2 →
          out = paMax (PixelArray.gray [[(0 : Rat), 100, 150, 200, 300]])) ∧
        (¬ x ≤ 150 - 100 / 2 → ¬ x > 150 + 100 / 2 →
          out = ((x - 150 + 100 / 2) / 100 *
              (paMax (PixelArray.gray [[(0 : Rat), 100, 150, 200, 300]])
                - paMin (PixelArray.gray [[(0 : Rat), 100, 150, 200, 300]])))
            + paMin (PixelArray.gray [[(0 : Rat), 100, 150, 200, 300]])))
      (get_LUT_value_LINEAR_EXACT
        (PixelArray.gray [[(0 : Rat), 100, 150, 200, 300]]) 100 150)
      (PixelArray.gray [[(0 : Rat), 100, 150, 200, 300]]) :=
  C2_linear_exact_window (PixelArray.gray [[(0 : Rat), 100, 150, 200, 300]])
    100 150 (by norm_num)

/-- Claim C4, counterexample to the statement as written: a 2-dimensional
array is not left unchanged when the photometric interpretation is in
the reorder set; the unguarded triple index raises IndexError.  Here a
PALETTE COLOR dataset with a 1 by 1 grayscale array. -/
theorem C4_counterexample :
    color_reorder
        { SOPClassUID := "1.2", PhotometricInterpretation := some "PALETTE COLOR" }
        (PixelArray.gray [[(0 : Nat)]])
      = .error "IndexError: too many indices for array" ∧
    (Except.error (ε := String) "IndexError: too many indices for array"
      ≠ Except.ok (PixelArray.gray [[(0 : Nat)]])) :=
  ⟨rfl, fun h => Except.noConfusion h⟩

/-- Claim C4, amended: the reorder swaps channels 0 and 2 exactly when
PhotometricInterpretation is in {YBR_RCT, RGB, YBR_ICT,
YBR_PARTIAL_420, YBR_FULL_422, YBR_FULL, PALETTE COLOR}; on a
3-dimensional array it swaps each pixel's channels 0 and 2; an array
that is not 3-dimensional is left unchanged only when the photometric
interpretation is outside the set (or absent) — with it in the set the
unguarded index raises IndexError, which the per-file handler records
as a Failed outcome. -/
theorem C4_color_reorder {α : Type} (ds : Dataset) (pa : PixelArray α) :
    ((∃ pm, ds.PhotometricInterpretation = some pm ∧ pm ∈ reorderSet) →
      (∀ c rows, pa = .color c rows →
        color_reorder ds pa = .ok (.color c (rows.map (List.map swap02)))) ∧
      (∀ rows, pa = .gray rows →
        color_reorder ds pa = .error "IndexError: too many indices for array")) ∧
    ((∀ pm, ds.PhotometricInterpretation = some pm → pm ∉ reorderSet) →
      color_reorder ds pa = .ok pa) ∧
    (∀ (a b c : α) (rest : List α), swap02 (a :: b :: c :: rest) = c :: b :: a :: rest) := by
  refine ⟨?_, ?_, fun a b c rest => rfl⟩
  · rintro ⟨pm, hpm, hmem⟩
    constructor
    · rintro c rows rfl
      simp [color_reorder, hpm, hmem]
    · rintro rows rfl
      simp [color_reorder, hpm, hmem]
  · intro h
    match hpm : ds.PhotometricInterpretation with
    | none => simp [color_reorder, hpm]
    | some pm =>
      have := h pm hpm
      cases pa with
      | gray rows => simp [color_reorder, hpm, this]
      | color c rows => simp [color_reorder, hpm, this]

/-- Witness for C4: an RGB 1 by 1 by 3 array has its channels 0 and 2
swapped, and a MONOCHROME2 grayscale array passes through unchanged. -/
theorem C4_witness :
    color_reorder
        { SOPClassUID := "1.2", PhotometricInterpretation := some "RGB" }
        (PixelArray.color 3 [[[(1 : Nat), 2, 3]]])
      = .ok (.color 3 [[[3, 2, 1]]]) ∧
    color_reorder
        { SOPClassUID := "1.2", PhotometricInterpretation := some "MONOCHROME2" }
        (PixelArray.gray [[(7 : Nat)]])
      = .ok (PixelArray.gray [[7]]) := by
  constructor
  · have h := (C4_color_reorder
        { SOPClassUID := "1.2", PhotometricInterpretation := some "RGB" }
        (PixelArray.color 3 [[[(1 : Nat), 2, 3]]])).1
        ⟨"RGB", rfl, by decide⟩
    exact h.1 3 [[[1, 2, 3]]] rfl
  · exact (C4_color_reorder
        { SOPClassUID := "1.2", PhotometricInterpretation := some "MONOCHROME2" }
        (PixelArray.gray [[(7 : Nat)]])).2.1
        (fun pm hpm => by
          cases hpm
          decide)

/-- A dataset for which the VOI step leaves the flat array `[[7, 7]]`
flat: rescale slope 1 and intercept 0, then linear-exact windowing with
window 100 and level 150 maps both elements to the global minimum 7. -/
def dsC1 : Dataset :=
  { SOPClassUID := "1.2.840.10008.5.1.4.1.1.7",
    RescaleSlope := some 1, RescaleIntercept := some 0,
    WindowCenter := some (.single 150), WindowWidth := some (.single 100),
    PhotometricInterpretation := some "MONOCHROME2" }

/-- Claim C1 fails on the code: on an array that is flat after the VOI
step, the presentation-normalization of line 60 computes
`(x - min) / (max - min)` with a zero denominator, so every element
becomes the non-finite `0/0` (NaN, no exception) and the final
`astype('uint8')` receives NaN, whose conversion is undefined — not the
claimed uniform all-zero array.  Evaluated at the failing input
`[[7, 7]]` with `dsC1`. -/
theorem C1_flat_after_voi_nan :
    get_LUT_value_LINEAR_EXACT (PixelArray.gray [[(7 : Rat), 7]]) 100 150
      = PixelArray.gray [[7, 7]] ∧
    paMin (PixelArray.gray [[(7 : Rat), 7]]) = paMax (PixelArray.gray [[(7 : Rat), 7]]) ∧
    normalize_step (PixelArray.gray [[(7 : Rat), 7]]) = PixelArray.gray [[none, none]] ∧
    pixel_process extId dsC1 (PixelArray.gray [[(7 : Rat), 7]])
      = PixelArray.gray [[none, none]] ∧
    PixelArray.gray [[(none : Option Nat), none]]
      ≠ PixelArray.gray [[some 0, some 0]] := by
  refine ⟨?_, ?_, ?_, ?_, ?_⟩
  · norm_num [get_LUT_value_LINEAR_EXACT, paMap, paMin, paMax, paFlatten,
      listMin, listMax, min_def, max_def]
  · norm_num [paMin, paMax, paFlatten, listMin, listMax]
  · norm_num [normalize_step, paMap, paMin, paMax, paFlatten, listMin, listMax,
      fvDiv, fvMul, min_def, max_def]
  · norm_num +decide [pixel_process, dsC1, extId, get_LUT_value_LINEAR_EXACT,
      normalize_step, DVal.first, paMap, paMin, paMax, paFlatten,
      listMin, listMax, fvDiv, fvMul, astype_uint8, min_def, max_def]
  · intro h
    rw [PixelArray.gray.injEq] at h
    simp at h

/-- Claim C9: on any array produced by the presentation-normalization
step (of a nonempty, non-flat input), the MONOCHROME1 inversion
`result = max(result) - result` applied twice is the identity, so after
8-bit quantization the values are within 1 (indeed equal) of the
original quantized values. -/
theorem C9_monochrome1_inversion_involutive (a : PixelArray Rat)
    (hne : paFlatten a ≠ []) (hmm : paMin a ≠ paMax a) :
    invert_step (invert_step (normalize_step a)) = normalize_step a ∧
    paForall₂ (fun p q => ∃ m n, p = some m ∧ q = some n ∧ Nat.dist m n ≤ 1)
      (paMap astype_uint8 (invert_step (invert_step (normalize_step a))))
      (paMap astype_uint8 (normalize_step a)) := by
  have hlt : paMin a < paMax a := lt_of_le_of_ne (listMin_le_listMax hne) hmm
  have hrpos : 0 < paMax a - paMin a := sub_pos.mpr hlt
  have hr : paMax a - paMin a ≠ 0 := ne_of_gt hrpos
  set g : Rat → Rat := fun x => (x - paMin a) / (paMax a - paMin a) * 255 with hg
  have hys : normalize_step a = paMap (fun x => some (g x)) a := by
    simp only [normalize_step]
    congr 1
    funext x
    simp [fvDiv, fvMul, hr, hg]
  have hmapg_ne : (paFlatten a).map g ≠ [] := by
    intro h
    exact hne (List.map_eq_nil_iff.mp h)
  have hflat : paFlatten (normalize_step a)
      = ((paFlatten a).map g).map some := by
    rw [hys, paFlatten_paMap, List.map_map]
    rfl
  have hmax1 : npMaxFV (paFlatten (normalize_step a))
      = some (listMax ((paFlatten a).map g)) := by
    rw [hflat, npMaxFV_map_some hmapg_ne]
  have hinv1 : invert_step (normalize_step a)
      = paMap (fun x => some (listMax ((paFlatten a).map g) - g x)) a := by
    simp only [invert_step]
    rw [hmax1, hys, paMap_paMap]
    rfl
  have hmin0 : listMin ((paFlatten a).map g) = 0 := by
    refine listMin_eq (List.mem_map.mpr ⟨paMin a, listMin_mem hne, by simp [hg]⟩) ?_
    intro y hy
    obtain ⟨x, hx, rfl⟩ := List.mem_map.mp hy
    have hx0 : 0 ≤ x - paMin a := sub_nonneg.mpr (listMin_le hne hx)
    have : (0 : Rat) ≤ (x - paMin a) / (paMax a - paMin a) :=
      div_nonneg hx0 (le_of_lt hrpos)
    simp only [hg]
    nlinarith
  have hmax2 : npMaxFV (paFlatten (invert_step (normalize_step a)))
      = some (listMax ((paFlatten a).map g)) := by
    rw [hinv1, paFlatten_paMap]
    have h1 : (paFlatten a).map
        (fun x => some (listMax ((paFlatten a).map g) - g x))
        = (((paFlatten a).map g).map
            (fun v => listMax ((paFlatten a).map g) - v)).map some := by
      simp [List.map_map]
    rw [h1, npMaxFV_map_some (by
      intro h
      exact hmapg_ne (List.map_eq_nil_iff.mp h))]
    rw [listMax_map_const_sub _ hmapg_ne, hmin0, sub_zero]
  have h2 : invert_step (invert_step (normalize_step a))
      = paMap (fun x => some (g x)) a := by
    have step : invert_step (invert_step (normalize_step a))
        = paMap
            (fun x => fvSub (npMaxFV (paFlatten (invert_step (normalize_step a)))) x)
            (invert_step (normalize_step a)) := rfl
    rw [step, hmax2, hinv1, paMap_paMap]
    congr 1
    funext x
    simp [fvSub]
  have hEq : invert_step (invert_step (normalize_step a)) = normalize_step a :=
    h2.trans hys.symm
  refine ⟨hEq, ?_⟩
  rw [hEq, hys, paMap_paMap]
  refine paForall₂_refl ?_
  intro y hy
  rw [paFlatten_paMap] at hy
  obtain ⟨x, hx, rfl⟩ := List.mem_map.mp hy
  exact ⟨(ratTrunc (g x) % 256).toNat, (ratTrunc (g x) % 256).toNat, rfl, rfl,
    by simp [Nat.dist_self]⟩

/-- Witness for C9 at the concrete normalized array of `[[0, 2]]`. -/
theorem C9_witness :
    invert_step (invert_step (normalize_step (PixelArray.gray [[(0 : Rat), 2]])))
      = normalize_step (PixelArray.gray [[(0 : Rat), 2]]) ∧
    paForall₂ (fun p q => ∃ m n, p = some m ∧ q = some n ∧ Nat.dist m n ≤ 1)
      (paMap astype_uint8
        (invert_step (invert_step (normalize_step (PixelArray.gray [[(0 : Rat), 2]])))))
      (paMap astype_uint8 (normalize_step (PixelArray.gray [[(0 : Rat), 2]]))) :=
  C9_monochrome1_inversion_involutive (PixelArray.gray [[(0 : Rat), 2]])
    (by simp [paFlatten])
    (by norm_num [paMin, paMax, paFlatten, listMin, listMax, min_def, max_def])

end D2B
